import Mathlib

/-!
Verification development for the natural-language-to-SQL chatbot backend.

The embedding follows the source files:
  - backend/models.py   : request/response data model (pydantic)
  - backend/prompts.py  : the two prompt builders (pure string templating)
  - backend/main.py     : the request orchestrator (the POST /query handler)
The SQL generation step and the database access layer live in backend/llm.py
and backend/db.py, which are not part of the provided sources; where a claim
depends on them they are modelled from the specification (each such
definition's doc comment says so).  The orchestrator is parametrised over
those steps, so its control flow is taken verbatim from main.py.

Python conventions mapped into Lean:
  - an awaited call that may raise an exception is an `Except String α`;
  - a Python string's truthiness test (`if llm_error:`) is a test against "";
  - a value interpolated into an f-string (`f"...{schema}..."`) enters the
    prompt through its rendered text, so the prompt builders take the
    rendered text as a `String` argument;
  - a database row (a mapping column name -> value) is an association list.
-/

/-- A query-result row: ordered mapping from column name to (rendered) value,
mirroring the `List[dict]` rows of the database response. -/
abbrev Row := List (String × String)

/-- Schema Descriptor: table name -> ordered columns (name, data type),
as in spec section 3. -/
abbrev Schema := List (String × List (String × String))

/-- QueryRequest from backend/models.py: `query: str`, `language: str = "en"`. -/
structure QueryRequest where
  query : String
  language : String
deriving DecidableEq, Repr

/-- QueryResponse from backend/models.py: sql, db_result, answer, error. -/
structure QueryResponse where
  sql : String
  db_result : List Row
  answer : String
  error : String
deriving DecidableEq, Repr

/-- Pydantic decoding of the POST /query body (backend/models.py):
`query` has no default so a body omitting it is rejected with a validation
error; `language` defaults to "en" when omitted. -/
def parseQueryRequest (queryField : Option String) (languageField : Option String) :
    Except String QueryRequest :=
  match queryField with
  | none => Except.error "field required: query"
  | some q => Except.ok ⟨q, languageField.getD "en"⟩

/-- What the POST /query handler hands back to the transport layer: either a
uniform-shape response, or an exception that escaped the handler (which the
framework turns into a 5xx). -/
inductive HandlerOutcome where
  | response (r : QueryResponse)
  | escaped (msg : String)
deriving DecidableEq, Repr

/-- The exception raised when the `except` block of query_endpoint evaluates
the local `sql_query` before any assignment to it has run. -/
def unboundLocalMsg : String :=
  "UnboundLocalError: local variable sql_query referenced before assignment"

/-- The POST /query handler from backend/main.py (query_endpoint), with the
four external steps passed in as parameters.  Control flow mirrors the source:
fetch schema, generate SQL, return early on a truthy llm_error, execute,
formulate the answer; a single `except Exception` wraps all four steps and
returns a dict whose "sql" field evaluates the local `sql_query` -- when the
exception arose before `sql_query` was assigned (schema fetch or the
query_to_sql call itself), that evaluation raises UnboundLocalError, which
escapes the handler. -/
def query_endpoint
    (database_schema : Except String Schema)
    (query_to_sql : String → Schema → String → Except String (String × String))
    (execute_sql_query : String → Except String (List Row))
    (answer_formulation : String → List Row → String → Except String String)
    (user_query : String) (language : String) : HandlerOutcome :=
  match database_schema with
  | Except.error _ => HandlerOutcome.escaped unboundLocalMsg
  | Except.ok schema =>
    match query_to_sql user_query schema language with
    | Except.error _ => HandlerOutcome.escaped unboundLocalMsg
    | Except.ok (sql_query, llm_error) =>
      if llm_error ≠ "" then
        HandlerOutcome.response ⟨"", [], "", llm_error⟩
      else
        match execute_sql_query sql_query with
        | Except.error e => HandlerOutcome.response ⟨sql_query, [], "", e⟩
        | Except.ok db_result =>
          match answer_formulation user_query db_result language with
          | Except.error e => HandlerOutcome.response ⟨sql_query, [], "", e⟩
          | Except.ok answer =>
            HandlerOutcome.response ⟨sql_query, db_result, answer, ""⟩

/-- conversion_to_sql_prompt from backend/prompts.py.  The `schema` dict enters
the Python f-string through its rendered text, so it is a `String` here.
Braces of the literal JSON examples are written with their escapes. -/
def conversion_to_sql_prompt (query : String) (schema : String) (language : String) : String :=
  "You are an expert SQL assistant. The database schema is:\n" ++ schema ++ "\n\n" ++
  "The user will ask a question about the data in any language. " ++
  "If the question is not in English, first translate it to English. " ++
  "Generate a valid SQL SELECT statement for the question. " ++
  "Never generate any statement other than SELECT. " ++
  "Important: Do not use UNION operations on tables with different column structures. " ++
  "If the user asks for 'all data' or similar broad requests, suggest a specific table or ask them to be more specific. " ++
  "If the user's request is to add, insert, update, delete, or modify data, " ++
  "or if it is not possible to answer with a SELECT statement, " ++
  "respond with a JSON object: \x7b'sql': null, 'error': 'Only read-only SELECT queries are allowed. This request cannot be fulfilled.'\x7d. " ++
  "If the request is too broad (like 'all data'), respond with: \x7b'sql': null, 'error': 'Please be more specific about which table or data you want to see.'\x7d. " ++
  "Respond ONLY with a JSON object in the format: \x7b'sql': '<SQL_QUERY or null>', 'error': '<error message or empty>'\x7d.\n\n" ++
  "User question (" ++ language ++ "): " ++ query

/-- answer_formulation_prompt from backend/prompts.py.  The `sql_result` list
enters the Python f-string through its rendered text, so it is a `String`
here. -/
def answer_formulation_prompt (query : String) (sql_result : String) (language : String) : String :=
  "You are a multilingual assistant." ++
  "Given the following SQL query result:\n" ++ sql_result ++ "\n" ++
  "and the original user question: " ++ query ++ "\n" ++
  "Summarize or explain the result in " ++ language ++ "." ++
  "If there is no result, state that clearly in your summary. " ++
  "Respond ONLY with a JSON object in the format: " ++
  "\x7b'summary': '<your summary or explanation in " ++ language ++ ">'\x7d."

/-- Uppercase the characters of a string (for the case-insensitive checks of
the SQL validator). -/
def upperData (s : String) : List Char := s.data.map Char.toUpper

/-- Substring occurrence on character lists: `pat` occurs contiguously inside
the second argument. -/
def infixB (pat : List Char) : List Char → Bool
  | [] => pat.isEmpty
  | c :: rest => pat.isPrefixOf (c :: rest) || infixB pat rest

/-- The data-modification keywords the spec's validator rejects. -/
def sqlModificationKeywords : List String :=
  ["INSERT", "UPDATE", "DELETE", "DROP", "ALTER", "TRUNCATE"]

/-- Case-insensitive test for a data-modification keyword occurring anywhere
in the string. -/
def containsModificationKeyword (s : String) : Bool :=
  sqlModificationKeywords.any (fun k => infixB k.data (upperData s))

/-- Scan for statement chaining: true when some semicolon is followed
(anywhere later in the string) by a non-whitespace character, i.e. the string
continues with a second statement beyond one trailing semicolon. -/
def chainsAux : List Char → Bool
  | [] => false
  | c :: rest =>
      if c = ';' then rest.any (fun d => !d.isWhitespace) || chainsAux rest
      else chainsAux rest

/-- A semicolon followed by non-whitespace, beyond one trailing semicolon. -/
def chainsStatements (s : String) : Bool := chainsAux s.data

/-- Begins with SELECT, case-insensitively, ignoring leading whitespace. -/
def startsWithSelect (s : String) : Bool :=
  "SELECT".data.isPrefixOf ((s.data.dropWhile Char.isWhitespace).map Char.toUpper)

/-- Modelled from the spec: the read-only validation of section 4.3 (the code
performing it lives in backend/llm.py, which is not among the provided
sources).  A string passes when it begins with SELECT (case-insensitive,
ignoring leading whitespace), contains no data-modification keyword, and does
not chain multiple statements. -/
def isReadOnlySelect (s : String) : Bool :=
  startsWithSelect s && !containsModificationKeyword s && !chainsStatements s

/-- Error message carrying the UnsafeQuery kind of spec section 7. -/
def unsafeQueryMsg : String :=
  "UnsafeQuery: generated SQL is not a single read-only SELECT statement"

/-- Error message carrying the EmptyGeneration kind of spec section 7. -/
def emptyGenerationMsg : String :=
  "EmptyGeneration: the model declined to produce SQL"

/-- Modelled from the spec: the decision policy of the SQL Generation Step
(section 4.3; the code lives in backend/llm.py, not among the provided
sources).  Input is the parsed model JSON (`sql`, `error`); output is the
(sql_query, llm_error) pair consumed by query_endpoint in backend/main.py.
Policy: a non-empty model error propagates with empty SQL output; a null or
empty sql with no error is an EmptyGeneration failure; otherwise the string
is validated read-only, failing as UnsafeQuery. -/
def sqlGenerationStep (modelSql : Option String) (modelError : String) : String × String :=
  if modelError ≠ "" then ("", modelError)
  else
    match modelSql with
    | none => ("", emptyGenerationMsg)
    | some s =>
      if s = "" then ("", emptyGenerationMsg)
      else if isReadOnlySelect s then (s, "")
      else ("", unsafeQueryMsg)

/-- Substring containment as an equation on concatenations. -/
def strContains (s pat : String) : Prop := ∃ a b, s = a ++ (pat ++ b)

theorem str_append_assoc (a b c : String) : a ++ b ++ c = a ++ (b ++ c) := by
  apply String.ext
  simp [String.data_append, List.append_assoc]

/-- The invariant claimed for every response: a non-empty error forces the
other three fields to their empty placeholders. -/
def errorImpliesEmptyPlaceholders (r : QueryResponse) : Prop :=
  r.error ≠ "" → r.sql = "" ∧ r.db_result = [] ∧ r.answer = ""

/-- C1: a generated SQL string that does not begin with SELECT
(case-insensitive, ignoring leading whitespace), or contains a
data-modification keyword, or chains statements — that is, fails
isReadOnlySelect — is rejected by the SQL Generation Step with the
UnsafeQuery error, and the orchestrator then answers with that error and
empty fields whatever the Query Executor would do: the string is never passed
to it. -/
theorem c1_unsafe_generated_sql_rejected (s : String)
    (hne : s ≠ "") (hbad : isReadOnlySelect s = false)
    (sch : Schema) (ex : String → Except String (List Row))
    (af : String → List Row → String → Except String String) (q l : String) :
    sqlGenerationStep (some s) "" = ("", unsafeQueryMsg) ∧
    query_endpoint (Except.ok sch)
        (fun _ _ _ => Except.ok (sqlGenerationStep (some s) "")) ex af q l
      = HandlerOutcome.response ⟨"", [], "", unsafeQueryMsg⟩ := by
  have h1 : sqlGenerationStep (some s) "" = ("", unsafeQueryMsg) := by
    simp [sqlGenerationStep, hne, hbad]
  refine ⟨h1, ?_⟩
  simp [query_endpoint, h1, unsafeQueryMsg]

/-- Witness for C1 at the concrete unsafe string "DROP TABLE customers". -/
theorem c1_unsafe_generated_sql_rejected_witness :
    sqlGenerationStep (some "DROP TABLE customers") "" = ("", unsafeQueryMsg) ∧
    query_endpoint (Except.ok [])
        (fun _ _ _ => Except.ok (sqlGenerationStep (some "DROP TABLE customers") ""))
        (fun _ => Except.ok []) (fun _ _ _ => Except.ok "") "remove customers" "en"
      = HandlerOutcome.response ⟨"", [], "", unsafeQueryMsg⟩ :=
  c1_unsafe_generated_sql_rejected "DROP TABLE customers" (by decide) (by decide)
    [] (fun _ => Except.ok []) (fun _ _ _ => Except.ok "") "remove customers" "en"

/-- C2 (failing input): when the schema fetch raises, the handler's except
block evaluates the never-assigned local sql_query, so an UnboundLocalError
escapes the handler to the transport layer instead of the uniform-shape
response the spec promises. -/
theorem c2_schema_failure_escapes_handler :
    query_endpoint (Except.error "DatabaseUnavailable: connection refused")
      (fun _ _ _ => Except.ok ("", "")) (fun _ => Except.ok [])
      (fun _ _ _ => Except.ok "") "Show me all customers from Germany" "en"
      = HandlerOutcome.escaped unboundLocalMsg := rfl

/-- C3 (counterexample): a run where query execution fails produces a
response whose error is non-empty while its sql field still carries the
generated SQL, refuting the claim that a non-empty error forces all other
fields to empty placeholders. -/
theorem c3_counterexample :
    query_endpoint (Except.ok [("customers", [("country", "text")])])
      (fun _ _ _ => Except.ok ("SELECT * FROM customers", ""))
      (fun _ => Except.error "QueryExecutionError: connection lost")
      (fun _ _ _ => Except.ok "") "Show me all customers" "en"
      = HandlerOutcome.response
          ⟨"SELECT * FROM customers", [], "", "QueryExecutionError: connection lost"⟩ ∧
    ¬ errorImpliesEmptyPlaceholders
        ⟨"SELECT * FROM customers", [], "", "QueryExecutionError: connection lost"⟩ := by
  constructor
  · rfl
  · intro hcl
    have := hcl (by decide)
    exact absurd this.1 (by decide)

/-- C3 (amended): in every response of the POST /query handler, a non-empty
error forces db_result and answer to their empty placeholders; the sql field
is not forced empty, since a failure after SQL generation returns the
generated SQL alongside the error. -/
theorem c3_amended_error_implies_no_rows_no_answer
    (dbs : Except String Schema)
    (qts : String → Schema → String → Except String (String × String))
    (ex : String → Except String (List Row))
    (af : String → List Row → String → Except String String)
    (q l : String) (r : QueryResponse)
    (hr : query_endpoint dbs qts ex af q l = HandlerOutcome.response r)
    (he : r.error ≠ "") : r.db_result = [] ∧ r.answer = "" := by
  cases dbs with
  | error e => exact absurd hr (by simp [query_endpoint])
  | ok sch =>
    cases hq : qts q sch l with
    | error e => exact absurd hr (by simp [query_endpoint, hq])
    | ok p =>
      obtain ⟨s, llmErr⟩ := p
      by_cases hl : llmErr = ""
      · subst hl
        cases hx : ex s with
        | error m =>
          have hr2 : HandlerOutcome.response ⟨s, [], "", m⟩ = HandlerOutcome.response r := by
            rw [← hr]; simp [query_endpoint, hq, hx]
          cases hr2; exact ⟨rfl, rfl⟩
        | ok rows =>
          cases ha : af q rows l with
          | error m =>
            have hr2 : HandlerOutcome.response ⟨s, [], "", m⟩ = HandlerOutcome.response r := by
              rw [← hr]; simp [query_endpoint, hq, hx, ha]
            cases hr2; exact ⟨rfl, rfl⟩
          | ok ans =>
            have hr2 : HandlerOutcome.response ⟨s, rows, ans, ""⟩
                = HandlerOutcome.response r := by
              rw [← hr]; simp [query_endpoint, hq, hx, ha]
            cases hr2
            exact absurd rfl he
      · have hr2 : HandlerOutcome.response ⟨"", [], "", llmErr⟩
            = HandlerOutcome.response r := by
          rw [← hr]; simp [query_endpoint, hq, hl]
        cases hr2; exact ⟨rfl, rfl⟩

/-- Witness for the amended C3 at a concrete failing execution. -/
theorem c3_amended_error_implies_no_rows_no_answer_witness :
    (QueryResponse.mk "SELECT 1" [] "" "boom").db_result = [] ∧
    (QueryResponse.mk "SELECT 1" [] "" "boom").answer = "" :=
  c3_amended_error_implies_no_rows_no_answer
    (Except.ok []) (fun _ _ _ => Except.ok ("SELECT 1", ""))
    (fun _ => Except.error "boom") (fun _ _ _ => Except.ok "") "q" "en"
    (QueryResponse.mk "SELECT 1" [] "" "boom") rfl (by decide)

/-- C4: when the model returns a null sql with a non-empty error, the SQL
Generation Step propagates it as ("", error), and the orchestrator responds
with exactly that error text and empty sql, db_result and answer — for every
Query Executor and Answer Formulation step, i.e. neither is invoked. -/
theorem c4_model_refusal_propagates (msg : String) (h : msg ≠ "")
    (sch : Schema) (ex : String → Except String (List Row))
    (af : String → List Row → String → Except String String) (q l : String) :
    sqlGenerationStep none msg = ("", msg) ∧
    query_endpoint (Except.ok sch)
        (fun _ _ _ => Except.ok (sqlGenerationStep none msg)) ex af q l
      = HandlerOutcome.response ⟨"", [], "", msg⟩ := by
  have h1 : sqlGenerationStep none msg = ("", msg) := by
    simp [sqlGenerationStep, h]
  refine ⟨h1, ?_⟩
  simp [query_endpoint, h1, h]

/-- Witness for C4 at the spec's scenario: the model refuses
"Delete all orders" with its canned read-only error message. -/
theorem c4_model_refusal_propagates_witness :
    sqlGenerationStep none "Only read-only SELECT queries are allowed." =
      ("", "Only read-only SELECT queries are allowed.") ∧
    query_endpoint (Except.ok [])
        (fun _ _ _ =>
          Except.ok (sqlGenerationStep none "Only read-only SELECT queries are allowed."))
        (fun _ => Except.ok []) (fun _ _ _ => Except.ok "") "Delete all orders" "en"
      = HandlerOutcome.response
          ⟨"", [], "", "Only read-only SELECT queries are allowed."⟩ :=
  c4_model_refusal_propagates "Only read-only SELECT queries are allowed." (by decide)
    [] (fun _ => Except.ok []) (fun _ _ _ => Except.ok "") "Delete all orders" "en"

/-- C5 (counterexample): a request that enters Errored after SQL generation
succeeded does not always return the accumulated partial result — when the
Answer Formulation step fails, the rows already fetched by the Query Executor
are discarded: the executor returned a non-empty row list, yet the response's
db_result is empty. -/
theorem c5_counterexample :
    query_endpoint (Except.ok [("customers", [("country", "text")])])
      (fun _ _ _ => Except.ok ("SELECT * FROM customers", ""))
      (fun _ => Except.ok [[("country", "Germany")]])
      (fun _ _ _ => Except.error "LLMFailure: timeout")
      "Show me all customers" "en"
      = HandlerOutcome.response
          ⟨"SELECT * FROM customers", [], "", "LLMFailure: timeout"⟩ ∧
    [[("country", "Germany")]] ≠ ([] : List Row) := by
  exact ⟨rfl, by decide⟩

/-- C5 (amended): for every entry into Errored after SQL generation
succeeded — whether the Query Executor raises or, rows already fetched, the
Answer Formulation step raises — the handler immediately returns the SQL
generated so far in the sql field together with the error message, and
performs no compensation or rollback (the model contains no write or
rollback operation, the response is produced directly); the fetched
db_result, however, is not part of the returned partial result: it comes
back as the empty list in both cases. -/
theorem c5_errored_returns_generated_sql (sch : Schema) (s m : String)
    (rows : List Row)
    (af : String → List Row → String → Except String String) (q l : String) :
    query_endpoint (Except.ok sch) (fun _ _ _ => Except.ok (s, ""))
      (fun _ => Except.error m) af q l
      = HandlerOutcome.response ⟨s, [], "", m⟩ ∧
    query_endpoint (Except.ok sch) (fun _ _ _ => Except.ok (s, ""))
      (fun _ => Except.ok rows) (fun _ _ _ => Except.error m) q l
      = HandlerOutcome.response ⟨s, [], "", m⟩ := by
  constructor <;> simp [query_endpoint]

/-- C10: when the SQL generation step reports a non-empty llm_error, the
response's sql field is the empty string even if the step's sql_query
component is non-empty, and the result does not depend on the Query Executor
or Answer Formulation step: the accompanying SQL is discarded, never reported
and never executed. -/
theorem c10_sql_discarded_on_llm_error (sch : Schema) (s e : String) (he : e ≠ "")
    (ex : String → Except String (List Row))
    (af : String → List Row → String → Except String String) (q l : String) :
    query_endpoint (Except.ok sch) (fun _ _ _ => Except.ok (s, e)) ex af q l
      = HandlerOutcome.response ⟨"", [], "", e⟩ := by
  simp [query_endpoint, he]

/-- Witness for C10: a non-empty generated SQL accompanied by an error is
dropped from the response. -/
theorem c10_sql_discarded_on_llm_error_witness :
    query_endpoint (Except.ok [])
      (fun _ _ _ => Except.ok ("SELECT * FROM orders", "LLMFailure: timeout"))
      (fun _ => Except.ok []) (fun _ _ _ => Except.ok "") "orders" "en"
      = HandlerOutcome.response ⟨"", [], "", "LLMFailure: timeout"⟩ :=
  c10_sql_discarded_on_llm_error [] "SELECT * FROM orders" "LLMFailure: timeout"
    (by decide) (fun _ => Except.ok []) (fun _ _ _ => Except.ok "") "orders" "en"

/-- C6: prompt construction is deterministic and side-effect free —
conversion_to_sql_prompt is a pure function of (question, schema, language),
so identical inputs give identical text — and with fixed step functions
(a fixed Schema Descriptor and deterministic model stub) two identical
POST /query requests produce identical outcomes, in particular identical sql
output. -/
theorem c6_prompt_and_pipeline_deterministic (q sch l : String)
    (dbs : Except String Schema)
    (qts : String → Schema → String → Except String (String × String))
    (ex : String → Except String (List Row))
    (af : String → List Row → String → Except String String) (uq lang : String) :
    conversion_to_sql_prompt q sch l = conversion_to_sql_prompt q sch l ∧
    answer_formulation_prompt q sch l = answer_formulation_prompt q sch l ∧
    query_endpoint dbs qts ex af uq lang = query_endpoint dbs qts ex af uq lang :=
  ⟨rfl, rfl, rfl⟩

set_option maxRecDepth 8192 in
set_option maxHeartbeats 1000000 in
/-- C7: the summary prompt embeds the rendered query-result rows, instructs
the model to answer with a one-field JSON object whose single field is
summary — written in the requested language — and carries the explicit
empty-result instruction. -/
theorem c7_summary_prompt_contents (q rows l : String) :
    strContains (answer_formulation_prompt q rows l) rows ∧
    strContains (answer_formulation_prompt q rows l)
      "Respond ONLY with a JSON object in the format: " ∧
    (∃ pre, answer_formulation_prompt q rows l
      = pre ++ ("\x7b'summary': '<your summary or explanation in " ++ (l ++ ">'\x7d."))) ∧
    strContains (answer_formulation_prompt q rows l)
      ("Summarize or explain the result in " ++ (l ++ ".")) ∧
    strContains (answer_formulation_prompt q rows l)
      "If there is no result, state that clearly in your summary. " := by
  refine ⟨⟨"You are a multilingual assistant." ++ "Given the following SQL query result:\n",
      "\n" ++ "and the original user question: " ++ q ++ "\n" ++
      "Summarize or explain the result in " ++ l ++ "." ++
      "If there is no result, state that clearly in your summary. " ++
      "Respond ONLY with a JSON object in the format: " ++
      "\x7b'summary': '<your summary or explanation in " ++ l ++ ">'\x7d.", ?_⟩,
    ⟨"You are a multilingual assistant." ++ "Given the following SQL query result:\n" ++
      rows ++ "\n" ++ "and the original user question: " ++ q ++ "\n" ++
      "Summarize or explain the result in " ++ l ++ "." ++
      "If there is no result, state that clearly in your summary. ",
      "\x7b'summary': '<your summary or explanation in " ++ l ++ ">'\x7d.", ?_⟩,
    ⟨"You are a multilingual assistant." ++ "Given the following SQL query result:\n" ++
      rows ++ "\n" ++ "and the original user question: " ++ q ++ "\n" ++
      "Summarize or explain the result in " ++ l ++ "." ++
      "If there is no result, state that clearly in your summary. " ++
      "Respond ONLY with a JSON object in the format: ", ?_⟩,
    ⟨"You are a multilingual assistant." ++ "Given the following SQL query result:\n" ++
      rows ++ "\n" ++ "and the original user question: " ++ q ++ "\n",
      "If there is no result, state that clearly in your summary. " ++
      "Respond ONLY with a JSON object in the format: " ++
      "\x7b'summary': '<your summary or explanation in " ++ l ++ ">'\x7d.", ?_⟩,
    ⟨"You are a multilingual assistant." ++ "Given the following SQL query result:\n" ++
      rows ++ "\n" ++ "and the original user question: " ++ q ++ "\n" ++
      "Summarize or explain the result in " ++ l ++ ".",
      "Respond ONLY with a JSON object in the format: " ++
      "\x7b'summary': '<your summary or explanation in " ++ l ++ ">'\x7d.", ?_⟩⟩ <;>
    (apply String.ext;
     simp [answer_formulation_prompt, String.data_append, List.append_assoc])

/-- C8: decoding the POST /query body per backend/models.py — a body that
omits language is accepted with language defaulting to "en"; a body that
omits query is rejected with a validation error, whatever it says for
language. -/
theorem c8_language_defaults_query_required (q : String) (lf : Option String) :
    parseQueryRequest (some q) none = Except.ok ⟨q, "en"⟩ ∧
    parseQueryRequest none lf = Except.error "field required: query" :=
  ⟨rfl, rfl⟩

set_option maxRecDepth 8192 in
set_option maxHeartbeats 1000000 in
/-- C9: the conversion prompt ends with the user question marker followed by
the question text verbatim — no sanitization or escaping between the marker
and the untrusted user text — and contains the rendered schema verbatim. -/
theorem c9_conversion_prompt_embeds_inputs_verbatim (q sch l : String) :
    (∃ pre, conversion_to_sql_prompt q sch l
        = pre ++ ("User question (" ++ (l ++ ("): " ++ q)))) ∧
    strContains (conversion_to_sql_prompt q sch l) sch := by
  refine ⟨⟨"You are an expert SQL assistant. The database schema is:\n" ++ sch ++ "\n\n" ++
      "The user will ask a question about the data in any language. " ++
      "If the question is not in English, first translate it to English. " ++
      "Generate a valid SQL SELECT statement for the question. " ++
      "Never generate any statement other than SELECT. " ++
      "Important: Do not use UNION operations on tables with different column structures. " ++
      "If the user asks for 'all data' or similar broad requests, suggest a specific table or ask them to be more specific. " ++
      "If the user's request is to add, insert, update, delete, or modify data, " ++
      "or if it is not possible to answer with a SELECT statement, " ++
      "respond with a JSON object: \x7b'sql': null, 'error': 'Only read-only SELECT queries are allowed. This request cannot be fulfilled.'\x7d. " ++
      "If the request is too broad (like 'all data'), respond with: \x7b'sql': null, 'error': 'Please be more specific about which table or data you want to see.'\x7d. " ++
      "Respond ONLY with a JSON object in the format: \x7b'sql': '<SQL_QUERY or null>', 'error': '<error message or empty>'\x7d.\n\n", ?_⟩,
    ⟨"You are an expert SQL assistant. The database schema is:\n",
      "\n\n" ++
      "The user will ask a question about the data in any language. " ++
      "If the question is not in English, first translate it to English. " ++
      "Generate a valid SQL SELECT statement for the question. " ++
      "Never generate any statement other than SELECT. " ++
      "Important: Do not use UNION operations on tables with different column structures. " ++
      "If the user asks for 'all data' or similar broad requests, suggest a specific table or ask them to be more specific. " ++
      "If the user's request is to add, insert, update, delete, or modify data, " ++
      "or if it is not possible to answer with a SELECT statement, " ++
      "respond with a JSON object: \x7b'sql': null, 'error': 'Only read-only SELECT queries are allowed. This request cannot be fulfilled.'\x7d. " ++
      "If the request is too broad (like 'all data'), respond with: \x7b'sql': null, 'error': 'Please be more specific about which table or data you want to see.'\x7d. " ++
      "Respond ONLY with a JSON object in the format: \x7b'sql': '<SQL_QUERY or null>', 'error': '<error message or empty>'\x7d.\n\n" ++
      "User question (" ++ l ++ "): " ++ q, ?_⟩⟩ <;>
    (apply String.ext;
     simp [conversion_to_sql_prompt, String.data_append, List.append_assoc])
